import Mathlib

set_option maxHeartbeats 1000000

/-! Shallow embedding of the dPolaris_ops process-supervision and job-polling
code (src/ops/main.py, src/ops/checks.py, src/src/ops_cli.py,
src/opsctl/__main__.py).  HTTP transport, the OS process table and the
wall clock are abstracted as explicit parameters; JSON payloads are
modelled by the `Py` value type below. -/

/-- A Python/JSON-like value as handled by the ops scripts. -/
inductive Py where
  | none
  | bool (b : Bool)
  | int (n : Int)
  | str (s : String)
  | list (xs : List Py)
  | dict (kvs : List (String × Py))

/-- Python `repr` of a value (quotes around strings), used by `str` on
containers.  Containers render in Python literal syntax. -/
def pyRepr : Py → String
  | .none => "None"
  | .bool true => "True"
  | .bool false => "False"
  | .int n => toString n
  | .str s => "\x27" ++ s ++ "\x27"
  | .list xs => "[" ++ pyReprList xs ++ "]"
  | .dict kvs => "\x7b" ++ pyReprDict kvs ++ "\x7d"
where
  pyReprList : List Py → String
    | [] => ""
    | [p] => pyRepr p
    | p :: ps => pyRepr p ++ ", " ++ pyReprList ps
  pyReprDict : List (String × Py) → String
    | [] => ""
    | [(k, v)] => "\x27" ++ k ++ "\x27: " ++ pyRepr v
    | (k, v) :: kvs => "\x27" ++ k ++ "\x27: " ++ pyRepr v ++ ", " ++ pyReprDict kvs

/-- Python `str` of a value: identity on strings, `repr`-like elsewhere. -/
def pyStr : Py → String
  | .str s => s
  | p => pyRepr p

/-- Python truthiness, as used by `if value:`. -/
def Py.truthy : Py → Bool
  | .none => false
  | .bool b => b
  | .int n => n != 0
  | .str s => !s.isEmpty
  | .list xs => !xs.isEmpty
  | .dict kvs => !kvs.isEmpty

/-- `d.get(k)` on a Python dict: `None` when the key is absent. -/
def pyGet (kvs : List (String × Py)) (k : String) : Py :=
  (List.lookup k kvs).getD Py.none

/-- `d.get(k, default)` on a Python dict. -/
def pyGetD (kvs : List (String × Py)) (k : String) (d : Py) : Py :=
  (List.lookup k kvs).getD d

/-- Whether the value is a Python dict (`isinstance(payload, dict)`). -/
def Py.isDict : Py → Bool
  | .dict _ => true
  | _ => false

/-- ASCII lower-casing, Python `str.lower` on the strings the code handles. -/
def lowerStr (s : String) : String :=
  String.mk (s.toList.map Char.toLower)

/-- Python `str.strip`: drop whitespace from both ends. -/
def pyStrip (s : String) : String :=
  String.mk (((s.toList.dropWhile Char.isWhitespace).reverse.dropWhile
    Char.isWhitespace).reverse)

/-- `str(x).strip().lower()`, the status normalization used everywhere. -/
def normTxt (s : String) : String :=
  lowerStr (pyStrip s)

/-- Python `a or b` on strings: `b` when `a` is empty. -/
def strOr (a b : String) : String :=
  if a = "" then b else a

/-- Substring test on character lists. -/
def hasSub : List Char → List Char → Bool
  | [], needle => needle.isEmpty
  | h :: t, needle => List.isPrefixOf needle (h :: t) || hasSub t needle

/-- Python `needle in hay` for strings. -/
def strContainsSub (hay needle : String) : Bool :=
  hasSub hay.toList needle.toList

/-- Python `str.isdigit`: non-empty and all digits. -/
def pyIsDigit (s : String) : Bool :=
  !s.toList.isEmpty && s.toList.all Char.isDigit

/-- Python `int(s)` on a digit string. -/
def digitsToNat (s : String) : Nat :=
  s.toList.foldl (fun n c => n * 10 + (c.toNat - 48)) 0

/-- Code-point lexicographic `<=` on strings, Python string comparison. -/
def lexLe : List Char → List Char → Bool
  | [], _ => true
  | _ :: _, [] => false
  | a :: as, b :: bs =>
    if a.toNat < b.toNat then true
    else if a.toNat = b.toNat then lexLe as bs
    else false

/-- Python `sorted` insertion step for string lists. -/
def insortStr (s : String) : List String → List String
  | [] => [s]
  | t :: ts => if lexLe s.toList t.toList then s :: t :: ts else t :: insortStr s ts

/-- `sorted(set(l))` on strings. -/
def sortedSet (l : List String) : List String :=
  l.eraseDups.foldr insortStr []

/-- An HTTP response as seen by the probe clients: status code, body text,
and the result of attempting to parse the body as JSON (`Option.none` when
the body is not valid JSON). -/
structure HttpResp where
  status : Nat
  text : String
  json : Option Py

/-- Outcome of one HTTP request at the transport level: either the library
raised (network error, timeout) with a message, or a response arrived. -/
inductive Transport where
  | exn (msg : String)
  | resp (r : HttpResp)

example : pyStr (Py.str "  OK ") = "  OK " := rfl
example : normTxt (pyStr (Py.str " Completed ")) = "completed" := by decide
example : strOr "" "poll error" = "poll error" := by decide
example : strContainsSub "x -m cli.main server y dpolaris_ai z" "-m cli.main server" = true := rfl
example : strContainsSub "nginx master" "dpolaris_ai" = false := rfl
example : sortedSet ["B", "A", "B"] = ["A", "B"] := by decide
example : pyIsDigit "8420" = true := by decide
example : digitsToNat "8420" = 8420 := by decide

/-- Shared loop body for job-id extraction: first candidate key whose value
is not `None` and has non-empty stripped `str` wins. -/
def firstIdFrom (kvs : List (String × Py)) : List String → Option String
  | [] => Option.none
  | key :: keys =>
    match pyGet kvs key with
    | Py.none => firstIdFrom kvs keys
    | v =>
      let text := pyStrip (pyStr v)
      if text = "" then firstIdFrom kvs keys else Option.some text

/-- Shared loop body for error-text extraction: first truthy candidate,
stringified. -/
def firstTruthyStr (kvs : List (String × Py)) : List String → String
  | [] => ""
  | k :: ks =>
    let v := pyGet kvs k
    if v.truthy then pyStr v else firstTruthyStr kvs ks

namespace Checks

/-- `ops/checks.py _request_json` (with `_safe_json` inlined): transport
exception gives `(False, None, None, str(exc))`; a body that is not valid
JSON gives `(False, status, text, "response was not valid JSON")`; then
status >= 400 is an HTTP failure; otherwise success. -/
def _request_json (t : Transport) : Bool × Option Nat × Py × String :=
  match t with
  | .exn m => (false, Option.none, Py.none, m)
  | .resp r =>
    match r.json with
    | Option.some j =>
      if r.status ≥ 400 then (false, Option.some r.status, j, "HTTP " ++ toString r.status)
      else (true, Option.some r.status, j, "")
    | Option.none => (false, Option.some r.status, Py.str r.text, "response was not valid JSON")

/-- `ops/checks.py _extract_job_id`: candidates `job_id`, `id`, `jobId`. -/
def _extract_job_id (payload : Py) : Option String :=
  match payload with
  | .dict kvs => firstIdFrom kvs ["job_id", "id", "jobId"]
  | _ => Option.none

/-- `ops/checks.py _extract_job_status`: lower-cased, stripped `status`
field; empty for non-dicts and missing/null status. -/
def _extract_job_status (payload : Py) : String :=
  match payload with
  | .dict kvs =>
    match pyGet kvs "status" with
    | Py.none => ""
    | v => normTxt (pyStr v)
  | _ => ""

/-- `ops/checks.py _extract_job_error`: first truthy of
`error`, `detail`, `message`, `reason`. -/
def _extract_job_error (payload : Py) : String :=
  match payload with
  | .dict kvs => firstTruthyStr kvs ["error", "detail", "message", "reason"]
  | _ => ""

/-- `ops/checks.py _contains_torch_missing`: case-insensitive search for
`no module named ['"]?torch['"]?` (the trailing optional quote never
affects whether a match exists). -/
def _contains_torch_missing (error_text : String) : Bool :=
  let lowered := lowerStr error_text
  strContainsSub lowered "no module named torch" ||
  strContainsSub lowered "no module named \x27torch" ||
  strContainsSub lowered "no module named \"torch"

/-- One recorded `CheckResult` (ops/checks.py); the wall-clock
`duration_seconds` field is not modelled. -/
structure CheckRec where
  name : String
  endpoint : String
  ok : Bool
  status_code : Option Nat
  details : String
  payload : Py

/-- Result of the doctor's poll phase: final status as left by the loop
(still `"running"` if the deadline expired), classifications appended
inside the loop, `ctx.job_error`, poll count, recorded checks, and
`last_payload`. -/
structure PollOut where
  finalStatus : String
  classifications : List String
  jobError : Option String
  pollCount : Nat
  checks : List CheckRec
  lastPayload : Py

/-- The `while time.time() < poll_deadline` loop of `run_checks`
(ops/checks.py lines 259-296).  `remaining` is the time left before
`poll_deadline` in seconds; each non-breaking iteration sleeps
`max(1, poll_seconds)` seconds.  `fuel` only bounds the recursion: since
every iteration consumes at least one second, any `fuel >= remaining`
makes the loop exit exactly when `remaining` hits zero, as the while-loop
does.  A transport or shape error breaks the loop with final status
`"failed"` and classification `API_CONTRACT_INCONSISTENT`; only
normalized status `"success"` / `"failed"` are terminal. -/
def pollLoop (oracle : Nat → Transport) (reqIdx : Nat) (jobId : String)
    (fuel remaining pollSeconds pollCount : Nat) (lastPayload : Py) : PollOut :=
  match fuel with
  | 0 => ⟨"running", [], Option.none, pollCount, [], lastPayload⟩
  | fuel + 1 =>
    if 0 < remaining then
      let (ok, code, payload, err) := _request_json (oracle reqIdx)
      let statusText := _extract_job_status payload
      let checkOk := ok && payload.isDict
      let rec0 : CheckRec := ⟨"D_POLL_DL_JOB", "GET /api/jobs/" ++ jobId, checkOk, code,
        strOr statusText (strOr err "poll error"), payload⟩
      if checkOk then
        if statusText = "success" then
          ⟨"success", [], Option.none, pollCount + 1, [rec0], payload⟩
        else if statusText = "failed" then
          ⟨"failed", [], Option.some (_extract_job_error payload), pollCount + 1, [rec0],
            payload⟩
        else
          let rest := pollLoop oracle (reqIdx + 1) jobId fuel
            (remaining - max 1 pollSeconds) pollSeconds (pollCount + 1) payload
          ⟨rest.finalStatus, rest.classifications, rest.jobError, rest.pollCount,
            rec0 :: rest.checks, rest.lastPayload⟩
      else
        ⟨"failed", ["API_CONTRACT_INCONSISTENT"], Option.some (strOr err "job poll failed"),
          pollCount + 1, [rec0], payload⟩
    else
      ⟨"running", [], Option.none, pollCount, [], lastPayload⟩

/-- The doctor report assembled by `run_checks` (timestamps, base_url and
input echoes are omitted; `poll_count`/`last_payload` are `none` on the
paths whose report has no such keys). -/
structure Report where
  checks : List CheckRec
  classifications : List String
  job_id : Option String
  final_status : String
  job_error : Py
  poll_count : Option Nat
  last_payload : Option Py
  summary_ok : Bool
  summary_reason : String

/-- `ops/checks.py run_checks`, over an oracle giving the transport outcome
of the n-th HTTP request (0 health, 1 api/status, 2 deep-learning/status,
3 enqueue, 4.. polls). -/
def run_checks (oracle : Nat → Transport) (timeout_seconds : Nat)
    (poll_seconds : Nat := 2) : Report :=
  let (ok0, code0, payload0, err0) := _request_json (oracle 0)
  let healthOk := ok0 && payload0.isDict
  let checkA : CheckRec := ⟨"A_HEALTH", "GET /health", healthOk, code0,
    if healthOk then "healthy" else strOr err0 "health check failed", payload0⟩
  if healthOk then
    let (ok1, code1, payload1, err1) := _request_json (oracle 1)
    let statusOk := ok1 && payload1.isDict
    let checkB : CheckRec := ⟨"B_API_STATUS", "GET /api/status", statusOk, code1,
      if statusOk then "ok" else strOr err1 "unexpected response", payload1⟩
    let cls1 : List String := if statusOk then [] else ["API_CONTRACT_INCONSISTENT"]
    let (ok2, code2, payload2, err2) := _request_json (oracle 2)
    let dlOk := ok2 && payload2.isDict
    let checkC : CheckRec := ⟨"C_DL_STATUS", "GET /api/deep-learning/status", dlOk, code2,
      if dlOk then "ok" else strOr err2 "unexpected response", payload2⟩
    let cls2 := cls1 ++ (if dlOk then [] else ["API_CONTRACT_INCONSISTENT"])
    let (ok3, code3, payload3, err3) := _request_json (oracle 3)
    let jobStartOk := ok3 && payload3.isDict
    let jobId := _extract_job_id payload3
    let checkD : CheckRec := ⟨"D_START_DL_JOB", "POST /api/jobs/deep-learning/train",
      jobStartOk && jobId.isSome, code3,
      if jobStartOk && jobId.isSome then "job started" else strOr err3 "missing job id",
      payload3⟩
    if jobStartOk && jobId.isSome then
      let out := pollLoop oracle 4 (jobId.getD "") timeout_seconds timeout_seconds
        poll_seconds 0 Py.none
      let f1 := if out.finalStatus ≠ "success" ∧ out.finalStatus ≠ "failed" then "timeout"
        else out.finalStatus
      let clsT : List String :=
        if out.finalStatus ≠ "success" ∧ out.finalStatus ≠ "failed" then ["DL_JOB_TIMEOUT"]
        else []
      let jobErrStr := (out.jobError).getD ""
      let clsM : List String :=
        if f1 = "failed" && _contains_torch_missing jobErrStr then ["MISSING_TORCH"] else []
      let allCls := cls2 ++ out.classifications ++ clsT ++ clsM
      let sOk := f1 = "success" && allCls.isEmpty
      ⟨[checkA, checkB, checkC, checkD] ++ out.checks, sortedSet allCls, jobId, f1,
        (match out.jobError with
          | Option.some e => Py.str e
          | Option.none => Py.none),
        Option.some out.pollCount, Option.some out.lastPayload, sOk,
        if sOk then "success" else "issues detected"⟩
    else
      ⟨[checkA, checkB, checkC, checkD], sortedSet (cls2 ++ ["API_CONTRACT_INCONSISTENT"]),
        jobId, "start_failed", Py.str err3, Option.none, Option.none, false,
        "job start failed"⟩
  else
    ⟨[checkA], ["BACKEND_DOWN"], Option.none, "not_started", Py.none, Option.none,
      Option.none, false, "backend down"⟩

end Checks

example :
    (Checks.run_checks (fun _ => Transport.exn "connection refused") 10 2).classifications =
      ["BACKEND_DOWN"] := by decide

example :
    (Checks.run_checks (fun _ => Transport.exn "connection refused") 10 2).checks.length =
      1 := by decide

example :
    (Checks.run_checks
      (fun n => Transport.resp ⟨200, "j",
        Option.some (if n = 3 then Py.dict [("id", Py.str "42")]
          else Py.dict [("status", Py.str "Completed")])⟩) 10 2).final_status =
      "timeout" := by decide

namespace OpsMain

/-- ops/main.py module constant. -/
def SAFE_SERVER_FRAGMENT : String := "-m cli.main server"

/-- ops/main.py module constant. -/
def SAFE_AI_REPO_FRAGMENT : String := "dpolaris_ai"

/-- ops/main.py module constant. -/
def HEALTH_OK_STATES : List String := ["healthy", "ok", "running"]

/-- ops/main.py module constant. -/
def JOB_SUCCESS_STATES : List String := ["completed", "success"]

/-- ops/main.py module constant. -/
def JOB_FAILURE_STATES : List String := ["failed", "error", "cancelled"]

/-- ops/main.py `HttpResult` dataclass. -/
structure HttpResult where
  ok : Bool
  status : Option Nat
  payload : Py
  error : String

/-- ops/main.py `_http_requests` (the branch of `http_json` used when the
`requests` library is importable): an exception gives
`HttpResult(False, None, None, str(exc))`; otherwise the payload is the
parsed JSON when the body parses, `{}` for an empty body, and
`{"raw": text}` for a non-JSON body; the success flag is
`200 <= status < 300` regardless of whether the body parsed. -/
def _http_requests (t : Transport) : HttpResult :=
  match t with
  | .exn m => ⟨false, Option.none, Py.none, m⟩
  | .resp r =>
    let payload :=
      if r.text = "" then Py.dict []
      else
        match r.json with
        | Option.some j => j
        | Option.none => Py.dict [("raw", Py.str r.text)]
    if 200 ≤ r.status ∧ r.status < 300 then ⟨true, Option.some r.status, payload, ""⟩
    else ⟨false, Option.some r.status, payload, "HTTP " ++ toString r.status⟩

/-- ops/main.py `_extract_job_id`: candidates `id`, `job_id`, `jobId`. -/
def _extract_job_id (payload : Py) : Option String :=
  match payload with
  | .dict kvs => firstIdFrom kvs ["id", "job_id", "jobId"]
  | _ => Option.none

/-- ops/main.py `_extract_job_error`. -/
def _extract_job_error (payload : Py) : String :=
  match payload with
  | .dict kvs => firstTruthyStr kvs ["error", "detail", "message", "reason"]
  | _ => ""

/-- ops/main.py `_status_text`: empty for non-dicts and missing/null
status, otherwise `str(status).strip().lower()`. -/
def _status_text (payload : Py) : String :=
  match payload with
  | .dict kvs =>
    match pyGet kvs "status" with
    | Py.none => ""
    | v => normTxt (pyStr v)
  | _ => ""

/-- ops/main.py `health_once`, over the transport outcome of its single
`GET /health` request. -/
def health_once (t : Transport) : Bool × String :=
  let result := _http_requests t
  if result.ok then
    let state := _status_text result.payload
    if state != "" && !(HEALTH_OK_STATES.contains state) then
      (false, "unexpected health status=" ++ state)
    else (true, "healthy")
  else (false, strOr result.error "health request failed")

/-- Result of `wait_healthy`: flag, elapsed time (in tenths of a second),
detail text, and how many health probes were performed. -/
structure WaitResult where
  ok : Bool
  elapsed : Nat
  detail : String
  probes : Nat

/-- The `while time.time() < deadline` loop of ops/main.py `wait_healthy`.
Time is in tenths of a second: probe `n` takes `cost n` ticks and each
retry sleeps 0.8s = 8 ticks.  `fuel` only bounds the recursion: every
iteration advances `t` by at least 8 ticks, so any `fuel >= deadline`
makes the loop exit exactly when `t` reaches `deadline`. -/
def waitLoop (oracle : Nat → Transport) (cost : Nat → Nat) (deadline : Nat) :
    Nat → Nat → Nat → String → WaitResult
  | 0, t, n, last => ⟨false, t, strOr last "timeout", n⟩
  | fuel + 1, t, n, last =>
    if t < deadline then
      let (ok, detail) := health_once (oracle n)
      if ok then ⟨true, t + cost n, detail, n + 1⟩
      else waitLoop oracle cost deadline fuel (t + cost n + 8) (n + 1) detail
    else ⟨false, t, strOr last "timeout", n⟩

/-- ops/main.py `wait_healthy`: the deadline is
`started + max(1, timeout_seconds)` seconds (10 ticks per second);
`oracle n` is the transport outcome of the n-th `/health` probe. -/
def wait_healthy (timeout_seconds : Int) (oracle : Nat → Transport)
    (cost : Nat → Nat) : WaitResult :=
  let deadline := 10 * (max 1 timeout_seconds).toNat
  waitLoop oracle cost deadline deadline 0 0 ""

/-- ops/main.py `_is_safe_backend_command`. -/
def _is_safe_backend_command (command : String) : Bool :=
  let lowered := lowerStr command
  strContainsSub lowered SAFE_SERVER_FRAGMENT &&
    strContainsSub lowered SAFE_AI_REPO_FRAGMENT

/-- Deterministic behavior of one OS process under `_terminate_pid`:
whether it is alive at the initial check, whether each signal is denied
(`PermissionError`), at which 0.2s liveness poll after SIGTERM it is
first seen dead (`none` = survives SIGTERM; a value past the grace
window means SIGKILL finds it already gone), and likewise for the 0.1s
polls after SIGKILL. -/
structure ProcBehavior where
  aliveInitially : Bool
  termDenied : Bool
  killDenied : Bool
  deathAfterTerm : Option Nat
  deathAfterKill : Option Nat

/-- ops/main.py `_terminate_pid` over a `ProcBehavior`: returns the
success flag, the stage string, and the list of signals actually sent.
`gracePolls` is the number of 0.2s polls inside `max(1, grace_seconds)`;
`hardPolls` the number of 0.1s polls inside the 3s hard deadline.  The
exception text of a denied signal is elided. -/
def _terminate_pid (p : ProcBehavior) (gracePolls hardPolls : Nat) :
    Bool × String × List String :=
  if p.aliveInitially then
    if p.termDenied then (false, "SIGTERM denied", ["SIGTERM"])
    else
      match p.deathAfterTerm with
      | Option.some d =>
        if d < gracePolls then (true, "sigterm", ["SIGTERM"])
        else (true, "sigterm-late", ["SIGTERM"])
      | Option.none =>
        if p.killDenied then (false, "SIGKILL denied", ["SIGTERM", "SIGKILL"])
        else
          match p.deathAfterKill with
          | Option.some d2 =>
            if d2 < hardPolls then (true, "sigkill", ["SIGTERM", "SIGKILL"])
            else (false, "still-running-after-sigkill", ["SIGTERM", "SIGKILL"])
          | Option.none => (false, "still-running-after-sigkill", ["SIGTERM", "SIGKILL"])
  else (true, "not-running", [])

/-- One port owner as assembled by `_collect_port_owners` (the
`termination` annotation added in the kill phase is not modelled). -/
structure Owner where
  pid : Nat
  command : String
  safe_to_kill : Bool

/-- ops/main.py `_collect_port_owners` over the inspected pid list and a
command-line lookup. -/
def _collect_port_owners (pids : List Nat) (command : Nat → String) : List Owner :=
  pids.map (fun pid => ⟨pid, command pid, _is_safe_backend_command (command pid)⟩)

/-- `", ".join(...)`. -/
def joinComma (l : List String) : String := String.intercalate ", " l

/-- The refusal message of `_stop_backend_on_port` for a non-allowlisted
owner. -/
def refuseMsgOnPort (port pid : Nat) (command : String) : String :=
  "port " ++ toString port ++ " owner is NOT allowlisted; refusing to kill pid=" ++
    toString pid ++
    ". Allowlist requires command containing \x27-m cli.main server\x27 and \x27dPolaris_ai\x27. Use --force to kill anyway. owner command: " ++
    command

/-- ops/main.py `_stop_backend_on_port`, parametrized by the inspection
result (`pids`, `inspectError`), the command-line lookup, and the
behavior of each process under termination.  Besides the function's
`(ok, message, owners)` result it returns the list of pids on which
`_terminate_pid` was invoked, so that "no partial kills" is visible. -/
def _stop_backend_on_port (port : Nat) (pids : List Nat) (inspectError : String)
    (command : Nat → String) (procOf : Nat → ProcBehavior) (gracePolls hardPolls : Nat)
    (force : Bool) : (Bool × String × List Owner) × List Nat :=
  let owners := _collect_port_owners pids command
  if inspectError != "" then
    ((false, "failed to inspect port " ++ toString port ++ ": " ++ inspectError, owners), [])
  else if owners.isEmpty then
    ((true, "no listener on port " ++ toString port, owners), [])
  else
    let killPhase : Unit → (Bool × String × List Owner) × List Nat := fun _ =>
      let results := owners.map
        (fun o => (o.pid, (_terminate_pid (procOf o.pid) gracePolls hardPolls).1))
      let failed := (results.filter (fun r => !r.2)).map (fun r => r.1)
      if failed.isEmpty then
        ((true, "stopped backend pid(s): " ++ joinComma (owners.map (fun o => toString o.pid)),
          owners), owners.map (fun o => o.pid))
      else
        ((false, "failed to stop pid(s): " ++ joinComma (failed.map toString), owners),
          owners.map (fun o => o.pid))
    if force then killPhase ()
    else
      match owners.find? (fun o => !o.safe_to_kill) with
      | Option.some o =>
        ((false, refuseMsgOnPort port o.pid (strOr o.command "(unknown)"), owners), [])
      | Option.none => killPhase ()

/-- ops/main.py `_read_pid_file`: `none` for a missing/unreadable file or
non-digit contents, else the parsed pid. -/
def _read_pid_file (content : Option String) : Option Nat :=
  match content with
  | Option.none => Option.none
  | Option.some text =>
    let t := pyStrip text
    if pyIsDigit t then Option.some (digitsToNat t) else Option.none

/-- The refusal message of `_stop_backend_from_pid_file`. -/
def refuseMsgPidFile (pid : Nat) (command : String) : String :=
  "backend.pid points to non-allowlisted pid=" ++ toString pid ++
    "; refusing to kill. Allowlist requires command containing \x27-m cli.main server\x27 and \x27dPolaris_ai\x27. Use --force to kill anyway. owner command: " ++
    strOr command "(unknown)"

/-- ops/main.py `_stop_backend_from_pid_file`, over the pid-file contents
(`none` = file absent), the excluded pid set, the command-line lookup and
the process behaviors.  Returns the `(ok, message)` result paired with
whether the pid file was deleted. -/
def _stop_backend_from_pid_file (content : Option String) (excluded : List Nat)
    (command : Nat → String) (procOf : Nat → ProcBehavior) (gracePolls hardPolls : Nat)
    (force : Bool) : (Bool × String) × Bool :=
  match _read_pid_file content with
  | Option.none => ((true, ""), false)
  | Option.some pid =>
    if excluded.contains pid then ((true, ""), true)
    else if !(procOf pid).aliveInitially then
      ((true, "removed stale backend pid file (pid=" ++ toString pid ++ ")"), true)
    else
      let cmd := command pid
      let isSafe := _is_safe_backend_command cmd
      if !isSafe && !force then ((false, refuseMsgPidFile pid cmd), false)
      else
        let (ok, mode, _) := _terminate_pid (procOf pid) gracePolls hardPolls
        if ok then
          ((true, "stopped backend pid from pid file: pid=" ++ toString pid ++ " (" ++
            mode ++ ")"), true)
        else
          ((false, "failed to stop backend pid from pid file: pid=" ++ toString pid ++
            ", reason=" ++ mode), false)

/-- Outcome of the `cmd_smoke_dl` poll loop (ops/main.py lines 1203-1252):
terminal success / terminal failure with the payload and normalized
state, or deadline expiry with the last recorded error and payload. -/
inductive DlLoopResult where
  | success (payload : Py) (state : String)
  | failed (payload : Py) (state : String) (errText : String)
  | timeout (lastError : String) (lastPayload : Py)

/-- The `while time.time() < deadline` poll loop of `cmd_smoke_dl`.
`remaining` is the seconds left before the deadline; every continuing
path sleeps 2 seconds.  `fuel` only bounds the recursion (any
`fuel >= remaining` is exact, since each iteration consumes 2 seconds).
A failed request or a non-dict payload records an error and continues;
the loop stops only on a status in `JOB_SUCCESS_STATES` or
`JOB_FAILURE_STATES`, or when the deadline expires. -/
def dlPollLoop (oracle : Nat → Transport) (n : Nat) :
    Nat → Nat → String → Py → String → DlLoopResult
  | 0, _, lastError, lastPayload, _ => .timeout lastError lastPayload
  | fuel + 1, remaining, lastError, lastPayload, lastStatus =>
    if 0 < remaining then
      let poll := _http_requests (oracle n)
      if !poll.ok then
        dlPollLoop oracle (n + 1) fuel (remaining - 2) poll.error lastPayload lastStatus
      else if !poll.payload.isDict then
        dlPollLoop oracle (n + 1) fuel (remaining - 2) "job poll payload is not JSON object"
          lastPayload lastStatus
      else
        let state := _status_text poll.payload
        if JOB_SUCCESS_STATES.contains state then .success poll.payload state
        else if JOB_FAILURE_STATES.contains state then
          .failed poll.payload state (strOr (_extract_job_error poll.payload) "job failed")
        else dlPollLoop oracle (n + 1) fuel (remaining - 2) lastError poll.payload state
    else .timeout lastError lastPayload

/-- `cmd_smoke_dl`'s poll phase: deadline `max(5, job_timeout)` seconds,
initial `last_payload = {}`, `last_error = ""`, `last_status = ""`. -/
def smokeDlPoll (oracle : Nat → Transport) (job_timeout : Nat) : DlLoopResult :=
  let deadline := max 5 job_timeout
  dlPollLoop oracle 0 deadline deadline "" (Py.dict []) ""

end OpsMain

example :
    OpsMain.health_once (Transport.resp ⟨200, "x",
      Option.some (Py.dict [("status", Py.str "Healthy")])⟩) = (true, "healthy") := by decide

example :
    (OpsMain.health_once (Transport.resp ⟨200, "x",
      Option.some (Py.dict [("status", Py.str "degraded")])⟩)).1 = false := by decide

example :
    OpsMain._extract_job_id (Py.dict [("job_id", Py.str "x"), ("id", Py.str "y")]) =
      Option.some "y" := by decide

example :
    OpsMain._is_safe_backend_command
      "/home/u/dPolaris_ai/.venv/bin/python -m cli.main server --host 127.0.0.1" =
      true := by decide

example :
    (OpsMain.wait_healthy (-3) (fun _ => Transport.exn "refused") (fun _ => 1)).probes =
      2 := by decide

namespace OpsCli

/-- src/ops_cli.py `request_json`: exception gives
`(False, None, None, str(exc))`; payload is parsed JSON, `{}` for an
empty body, `{"raw": text}` for a non-JSON body; failure iff
`status >= 400`. -/
def request_json (t : Transport) : Bool × Option Nat × Py × String :=
  match t with
  | .exn m => (false, Option.none, Py.none, m)
  | .resp r =>
    let payload :=
      if r.text = "" then Py.dict []
      else
        match r.json with
        | Option.some j => j
        | Option.none => Py.dict [("raw", Py.str r.text)]
    if r.status ≥ 400 then
      (false, Option.some r.status, payload, "HTTP " ++ toString r.status)
    else (true, Option.some r.status, payload, "")

/-- `str(payload.get("status", "")).strip().lower()` as used in
src/ops_cli.py (`health_once` and `cmd_smoke`): note a present-but-null
status stringifies to `"none"`, unlike ops/main.py `_status_text`. -/
def statusTextDefault (p : Py) : String :=
  match p with
  | .dict kvs => normTxt (pyStr (pyGetD kvs "status" (Py.str "")))
  | _ => ""

/-- `f"{status}"` for the `Optional[int]` status code. -/
def optStatusStr : Option Nat → String
  | Option.none => "None"
  | Option.some n => toString n

/-- src/ops_cli.py `health_once`. -/
def health_once (t : Transport) : Bool × String :=
  let (ok, status, payload, err) := request_json t
  if ok then
    match payload with
    | Py.dict kvs =>
      let state := normTxt (pyStr (pyGetD kvs "status" (Py.str "")))
      if state != "" && !(["healthy", "ok", "running"].contains state) then
        (false, "unexpected health status=" ++ state)
      else (true, "healthy")
    | _ => (true, "healthy")
  else (false, strOr err ("health failed (" ++ optStatusStr status ++ ")"))

/-- src/ops_cli.py `_extract_job_id`: candidates `id`, `job_id`, `jobId`. -/
def _extract_job_id (payload : Py) : Option String :=
  match payload with
  | .dict kvs => firstIdFrom kvs ["id", "job_id", "jobId"]
  | _ => Option.none

/-- `str(p.get("error") or p.get("detail") or p.get("message") or "")`. -/
def orChainEDM (kvs : List (String × Py)) : String :=
  let v := pyGet kvs "error"
  if v.truthy then pyStr v
  else
    let v2 := pyGet kvs "detail"
    if v2.truthy then pyStr v2
    else
      let v3 := pyGet kvs "message"
      if v3.truthy then pyStr v3 else ""

/-- Outcome of the `cmd_smoke` poll loop (src/ops_cli.py lines 166-189):
`timeout` corresponds to `summary["job_status"] = final_status or
"timeout"` with `summary["job"]` still `"FAIL"`. -/
inductive CliLoopResult where
  | success (state : String)
  | failed (state : String) (errText : String)
  | timeout (lastError : String)

/-- The `while time.time() < deadline` loop of `cmd_smoke`: request
failures and non-dict payloads record an error and continue; success
states are `{"completed", "success"}`, the only failure state is
`"failed"`.  `remaining` is seconds before the deadline; every
continuing path sleeps 2 seconds, and `fuel >= remaining` makes the
recursion exact. -/
def smokeLoop (oracle : Nat → Transport) (n : Nat) :
    Nat → Nat → String → CliLoopResult
  | 0, _, finalError => .timeout finalError
  | fuel + 1, remaining, finalError =>
    if 0 < remaining then
      let (ok, _, p, err) := request_json (oracle n)
      if !ok then smokeLoop oracle (n + 1) fuel (remaining - 2) err
      else
        match p with
        | Py.dict kvs =>
          let state := normTxt (pyStr (pyGetD kvs "status" (Py.str "")))
          if ["completed", "success"].contains state then .success state
          else if state = "failed" then .failed state (orChainEDM kvs)
          else smokeLoop oracle (n + 1) fuel (remaining - 2) finalError
        | _ => smokeLoop oracle (n + 1) fuel (remaining - 2) "job payload is not an object"
    else .timeout finalError

/-- `cmd_smoke`'s poll phase: deadline `max(5, job_timeout)` seconds. -/
def smokePoll (oracle : Nat → Transport) (job_timeout : Nat) : CliLoopResult :=
  let deadline := max 5 job_timeout
  smokeLoop oracle 0 deadline deadline ""

/-- src/ops_cli.py `_kill_pid`: on Windows `taskkill ... check=False`
never raises; on POSIX `os.kill(pid, SIGTERM)` is unguarded and raises
`ProcessLookupError` when the pid is not alive (a delivered signal to a
live pid is modelled as succeeding). -/
def _kill_pid (osIsNt : Bool) (alive : Nat → Bool) (pid : Nat) : Except String Unit :=
  if osIsNt then Except.ok ()
  else if alive pid then Except.ok ()
  else Except.error "ProcessLookupError"

/-- src/ops_cli.py `cmd_stop_backend`, over the pid-file contents
(`none` = file absent) and process liveness.  The result is the exit
code paired with whether the pid file was deleted; `Except.error` is an
uncaught exception escaping the command. -/
def cmd_stop_backend (osIsNt : Bool) (pidFile : Option String) (alive : Nat → Bool) :
    Except String (Int × Bool) :=
  match pidFile with
  | Option.none => Except.ok (0, false)
  | Option.some content =>
    let text := pyStrip content
    if !pyIsDigit text then Except.ok (2, false)
    else
      let pid := digitsToNat text
      match _kill_pid osIsNt alive pid with
      | Except.error e => Except.error e
      | Except.ok _ => Except.ok (0, true)

end OpsCli

namespace Opsctl

/-- src/opsctl/__main__.py `call_json` (the `requests` branch): payload
wrapping as in ops/main.py, but success iff `status < 400`. -/
def call_json (t : Transport) : Bool × Option Nat × Py × String :=
  match t with
  | .exn m => (false, Option.none, Py.none, m)
  | .resp r =>
    let payload :=
      if r.text = "" then Py.dict []
      else
        match r.json with
        | Option.some j => j
        | Option.none => Py.dict [("raw", Py.str r.text)]
    if r.status ≥ 400 then
      (false, Option.some r.status, payload, "HTTP " ++ toString r.status)
    else (true, Option.some r.status, payload, "")

end Opsctl

example :
    OpsCli.health_once (Transport.resp ⟨200, "x",
      Option.some (Py.dict [("status", Py.none)])⟩) =
      (false, "unexpected health status=none") := by decide

example :
    OpsCli.smokePoll (fun _ => Transport.resp ⟨200, "x",
      Option.some (Py.dict [("status", Py.str "Error")])⟩) 10 =
      OpsCli.CliLoopResult.timeout "" := rfl

example :
    (Opsctl.call_json (Transport.resp ⟨204, "nope", Option.none⟩)).1 = true := by decide

/-- C9: if the initial health check of the doctor run fails (transport
error, non-JSON, HTTP error, or a non-dict payload), `run_checks`
short-circuits: the report carries exactly one CheckResult (the health
check), the classification set is exactly BACKEND_DOWN, the job is
`not_started`, and the summary is not ok. -/
theorem doctor_health_fail_short_circuit
    (oracle : Nat → Transport) (t ps : Nat) (ok : Bool) (code : Option Nat)
    (payload : Py) (err : String)
    (hreq : Checks._request_json (oracle 0) = (ok, code, payload, err))
    (hfail : (ok && payload.isDict) = false) :
    (Checks.run_checks oracle t ps).checks.length = 1 ∧
    (Checks.run_checks oracle t ps).checks =
      [⟨"A_HEALTH", "GET /health", false, code, strOr err "health check failed", payload⟩] ∧
    (Checks.run_checks oracle t ps).classifications = ["BACKEND_DOWN"] ∧
    (Checks.run_checks oracle t ps).final_status = "not_started" ∧
    (Checks.run_checks oracle t ps).summary_ok = false := by
  simp only [Checks.run_checks, hreq, hfail]
  simp [hfail]

/-- Witness for C9 at a concrete refused connection. -/
theorem doctor_health_fail_short_circuit_witness :
    (Checks.run_checks (fun _ => Transport.exn "connection refused") 10 2).checks.length =
      1 ∧
    (Checks.run_checks (fun _ => Transport.exn "connection refused") 10 2).classifications =
      ["BACKEND_DOWN"] ∧
    (Checks.run_checks (fun _ => Transport.exn "connection refused") 10 2).summary_ok =
      false := by
  have h := doctor_health_fail_short_circuit (fun _ => Transport.exn "connection refused")
    10 2 false Option.none Py.none "connection refused" rfl rfl
  exact ⟨h.1, h.2.2.1, h.2.2.2.2⟩

/-- The probe count of `waitLoop` never drops below its starting index. -/
theorem waitLoop_probes_ge (oracle : Nat → Transport) (cost : Nat → Nat)
    (deadline : Nat) :
    ∀ (fuel t n : Nat) (last : String),
      n ≤ (OpsMain.waitLoop oracle cost deadline fuel t n last).probes := by
  intro fuel
  induction fuel with
  | zero => intro t n last; simp [OpsMain.waitLoop]
  | succ f ih =>
    intro t n last
    simp only [OpsMain.waitLoop]
    by_cases ht : t < deadline
    · simp only [ht, if_true]
      rcases h : OpsMain.health_once (oracle n) with ⟨ok, detail⟩
      cases ok
      · simpa using Nat.le_trans (Nat.le_succ n) (ih (t + cost n + 8) (n + 1) detail)
      · simp
    · simp [ht]

/-- C10: `wait_healthy` clamps its deadline to at least one second, so for
every timeout (zero and negative included) it performs at least one
health probe before returning; it cannot report a timeout without having
probed. -/
theorem wait_healthy_probes_at_least_once (timeout : Int)
    (oracle : Nat → Transport) (cost : Nat → Nat) :
    1 ≤ (OpsMain.wait_healthy timeout oracle cost).probes := by
  have h1 : (1 : Int) ≤ max 1 timeout := le_max_left _ _
  have h2 : 1 ≤ (max 1 timeout).toNat := by omega
  simp only [OpsMain.wait_healthy]
  rcases hd : 10 * (max 1 timeout).toNat with _ | d
  · omega
  · simp only [OpsMain.waitLoop]
    have hlt : 0 < d + 1 := Nat.succ_pos d
    simp only [hlt, if_true]
    rcases h : OpsMain.health_once (oracle 0) with ⟨ok, detail⟩
    cases ok
    · simpa using waitLoop_probes_ge oracle cost (d + 1) d (0 + cost 0 + 8) 1 detail
    · simp

/-- C8: `_terminate_pid` reports the stage that succeeded: an
initially-dead pid succeeds immediately with no signal sent; a process
dying within the grace window reports `sigterm`; one that survives
SIGTERM but dies within the hard window after SIGKILL reports `sigkill`;
one that survives both signals is a failure. -/
theorem terminate_stage_reporting (p : OpsMain.ProcBehavior) (g h : Nat) :
    (p.aliveInitially = false →
      OpsMain._terminate_pid p g h = (true, "not-running", [])) ∧
    (p.aliveInitially = true → p.termDenied = false →
      ∀ d, p.deathAfterTerm = Option.some d → d < g →
      OpsMain._terminate_pid p g h = (true, "sigterm", ["SIGTERM"])) ∧
    (p.aliveInitially = true → p.termDenied = false → p.killDenied = false →
      p.deathAfterTerm = Option.none →
      ∀ d2, p.deathAfterKill = Option.some d2 → d2 < h →
      OpsMain._terminate_pid p g h = (true, "sigkill", ["SIGTERM", "SIGKILL"])) ∧
    (p.aliveInitially = true → p.termDenied = false → p.killDenied = false →
      p.deathAfterTerm = Option.none → p.deathAfterKill = Option.none →
      OpsMain._terminate_pid p g h =
        (false, "still-running-after-sigkill", ["SIGTERM", "SIGKILL"])) := by
  refine ⟨?_, ?_, ?_, ?_⟩
  · intro ha; simp [OpsMain._terminate_pid, ha]
  · intro ha hd d hdt hlt; simp [OpsMain._terminate_pid, ha, hd, hdt, hlt]
  · intro ha hd hk hdt d2 hdk hlt; simp [OpsMain._terminate_pid, ha, hd, hk, hdt, hdk, hlt]
  · intro ha hd hk hdt hdk; simp [OpsMain._terminate_pid, ha, hd, hk, hdt, hdk]

/-- Witness for C8: all four stages at concrete process behaviors. -/
theorem terminate_stage_reporting_witness :
    OpsMain._terminate_pid ⟨false, false, false, Option.none, Option.none⟩ 5 30 =
      (true, "not-running", []) ∧
    OpsMain._terminate_pid ⟨true, false, false, Option.some 3, Option.none⟩ 5 30 =
      (true, "sigterm", ["SIGTERM"]) ∧
    OpsMain._terminate_pid ⟨true, false, false, Option.none, Option.some 7⟩ 5 30 =
      (true, "sigkill", ["SIGTERM", "SIGKILL"]) ∧
    OpsMain._terminate_pid ⟨true, false, false, Option.none, Option.none⟩ 5 30 =
      (false, "still-running-after-sigkill", ["SIGTERM", "SIGKILL"]) :=
  ⟨(terminate_stage_reporting ⟨false, false, false, Option.none, Option.none⟩ 5 30).1 rfl,
   (terminate_stage_reporting ⟨true, false, false, Option.some 3, Option.none⟩ 5 30).2.1
     rfl rfl 3 rfl (by decide),
   (terminate_stage_reporting ⟨true, false, false, Option.none, Option.some 7⟩ 5 30).2.2.1
     rfl rfl rfl rfl 7 rfl (by decide),
   (terminate_stage_reporting ⟨true, false, false, Option.none, Option.none⟩ 5 30).2.2.2
     rfl rfl rfl rfl rfl⟩

/-- C7 counterexample: on a POSIX platform, `cmd_stop_backend` of
src/ops_cli.py on a pid record whose pid is no longer alive raises
`ProcessLookupError` from the unguarded `os.kill` — an error, and the
record is not deleted — contradicting "deletes the record and returns
success, never an error". -/
theorem ops_cli_posix_stale_record_raises :
    OpsCli.cmd_stop_backend false (Option.some "4242") (fun _ => false) =
      Except.error "ProcessLookupError" := rfl

/-- C7 amended: in the engine (ops/main.py `_stop_backend_from_pid_file`)
a persisted pid record whose pid is not alive is always deleted with a
no-op success, for any force flag; in src/ops_cli.py `cmd_stop_backend`
(which never checks liveness) a stale digit record yields exit code 0
and deletion on its Windows platform, while on POSIX the SIGTERM to the
dead pid raises. -/
theorem stale_pid_record_noop :
    (∀ (content : Option String) (excluded : List Nat) (command : Nat → String)
      (procOf : Nat → OpsMain.ProcBehavior) (g h : Nat) (force : Bool) (pid : Nat),
      OpsMain._read_pid_file content = Option.some pid →
      excluded.contains pid = false →
      (procOf pid).aliveInitially = false →
      OpsMain._stop_backend_from_pid_file content excluded command procOf g h force =
        ((true, "removed stale backend pid file (pid=" ++ toString pid ++ ")"), true)) ∧
    (∀ (text : String) (alive : Nat → Bool),
      pyIsDigit (pyStrip text) = true →
      OpsCli.cmd_stop_backend true (Option.some text) alive = Except.ok (0, true)) := by
  constructor
  · intro content excluded command procOf g h force pid hread hexcl halive
    have hnm : pid ∉ excluded := by simpa using hexcl
    simp [OpsMain._stop_backend_from_pid_file, hread, hexcl, halive, hnm]
  · intro text alive hdigit
    simp [OpsCli.cmd_stop_backend, OpsCli._kill_pid, hdigit]

/-- Witness for C7 (amended) at a concrete stale record. -/
theorem stale_pid_record_noop_witness :
    OpsMain._stop_backend_from_pid_file (Option.some "4242\n") [] (fun _ => "")
      (fun _ => ⟨false, false, false, Option.none, Option.none⟩) 5 30 false =
      ((true, "removed stale backend pid file (pid=4242)"), true) ∧
    OpsCli.cmd_stop_backend true (Option.some "4242") (fun _ => false) =
      Except.ok (0, true) :=
  ⟨stale_pid_record_noop.1 (Option.some "4242\n") [] (fun _ => "")
      (fun _ => ⟨false, false, false, Option.none, Option.none⟩) 5 30 false 4242
      (by decide) rfl rfl,
   stale_pid_record_noop.2 "4242" (fun _ => false) (by decide)⟩

/-- C5 counterexample: for a 200 response whose body `"hello"` is not
valid JSON, the ops/main.py probe returns `success=true` (the claim says
every non-JSON body gives `success=false`), while the ops/checks.py
probe returns `success=false` but surfaces the payload as the bare text
`"hello"`, not as `{"raw": "hello"}`. -/
theorem non_json_probe_divergence :
    (OpsMain._http_requests (Transport.resp ⟨200, "hello", Option.none⟩)).ok = true ∧
    (OpsMain._http_requests (Transport.resp ⟨200, "hello", Option.none⟩)).payload =
      Py.dict [("raw", Py.str "hello")] ∧
    (Checks._request_json (Transport.resp ⟨200, "hello", Option.none⟩)).1 = false ∧
    (Checks._request_json (Transport.resp ⟨200, "hello", Option.none⟩)).2.2.1 =
      Py.str "hello" := ⟨rfl, rfl, rfl, rfl⟩

/-- C5 amended: no probe client raises — a transport exception is folded
into `success=false` with the message as the error in all three clients.
For a non-empty body that is not valid JSON, ops/main.py `_http_requests`
and opsctl `call_json` surface `{"raw": text}` but their success flag
depends only on the status code (2xx, resp. < 400), so a 2xx non-JSON
body is a success; ops/checks.py `_request_json` instead always fails on
a non-JSON body, with the raw text (unwrapped) as the payload. -/
theorem probe_non_json_behavior :
    (∀ r : HttpResp, r.json = Option.none →
      (r.text ≠ "" →
        (OpsMain._http_requests (Transport.resp r)).payload =
          Py.dict [("raw", Py.str r.text)] ∧
        ((OpsMain._http_requests (Transport.resp r)).ok = true ↔
          200 ≤ r.status ∧ r.status < 300) ∧
        (Opsctl.call_json (Transport.resp r)).2.2.1 = Py.dict [("raw", Py.str r.text)] ∧
        ((Opsctl.call_json (Transport.resp r)).1 = true ↔ r.status < 400)) ∧
      Checks._request_json (Transport.resp r) =
        (false, Option.some r.status, Py.str r.text, "response was not valid JSON")) ∧
    (∀ m : String,
      OpsMain._http_requests (Transport.exn m) = ⟨false, Option.none, Py.none, m⟩ ∧
      Checks._request_json (Transport.exn m) = (false, Option.none, Py.none, m) ∧
      Opsctl.call_json (Transport.exn m) = (false, Option.none, Py.none, m)) := by
  constructor
  · intro r hjson
    constructor
    · intro htext
      refine ⟨?_, ?_, ?_, ?_⟩
      · simp only [OpsMain._http_requests, hjson, if_neg htext]
        split <;> rfl
      · simp only [OpsMain._http_requests, hjson, if_neg htext]
        split <;> simp_all
      · simp only [Opsctl.call_json, hjson, if_neg htext]
        split <;> rfl
      · simp only [Opsctl.call_json, hjson, if_neg htext]
        split <;> simp_all
    · simp [Checks._request_json, hjson]
  · intro m
    exact ⟨rfl, rfl, rfl⟩

/-- Witness for C5 (amended) at a 404 non-JSON response and a timeout
exception. -/
theorem probe_non_json_behavior_witness :
    Checks._request_json (Transport.resp ⟨404, "oops", Option.none⟩) =
      (false, Option.some 404, Py.str "oops", "response was not valid JSON") ∧
    OpsMain._http_requests (Transport.exn "timed out") =
      ⟨false, Option.none, Py.none, "timed out"⟩ :=
  ⟨(probe_non_json_behavior.1 ⟨404, "oops", Option.none⟩ rfl).2,
   (probe_non_json_behavior.2 "timed out").1⟩

/-- C4 counterexample: a successfully fetched payload whose `status` field
is present (the whitespace string `" "`) normalizes to `""`, which is not
in {healthy, ok, running}, yet both health probes report healthy —
contradicting "present but not in that set (after normalization) is
reported unhealthy". -/
theorem health_blank_status_reported_healthy :
    OpsMain.health_once
      (Transport.resp ⟨200, "x", Option.some (Py.dict [("status", Py.str " ")])⟩) =
      (true, "healthy") ∧
    OpsCli.health_once
      (Transport.resp ⟨200, "x", Option.some (Py.dict [("status", Py.str " ")])⟩) =
      (true, "healthy") ∧
    pyGet [("status", Py.str " ")] "status" = Py.str " " ∧
    OpsMain.HEALTH_OK_STATES.contains (normTxt (pyStr (Py.str " "))) = false :=
  ⟨rfl, rfl, rfl, rfl⟩

/-- C4 amended: for every successfully fetched payload, `health_once`
reports healthy iff the normalized status text is empty or in
{healthy, ok, running}; a status that is absent, or that normalizes to
the empty string (whitespace-only, or null in ops/main.py), counts as
healthy rather than unhealthy. -/
theorem health_once_status_allowlist (st : Nat) (txt : String) (p : Py)
    (h1 : 200 ≤ st) (h2 : st < 300) (h3 : txt ≠ "") :
    ((OpsMain.health_once (Transport.resp ⟨st, txt, Option.some p⟩)).1 = true ↔
      (OpsMain._status_text p = "" ∨
        OpsMain._status_text p ∈ OpsMain.HEALTH_OK_STATES)) ∧
    ((OpsCli.health_once (Transport.resp ⟨st, txt, Option.some p⟩)).1 = true ↔
      (OpsCli.statusTextDefault p = "" ∨
        OpsCli.statusTextDefault p ∈ ["healthy", "ok", "running"])) := by
  have h4 : ¬ (400 ≤ st) := by omega
  constructor
  · simp only [OpsMain.health_once, OpsMain._http_requests, if_neg h3,
      if_pos (And.intro h1 h2)]
    by_cases hs : OpsMain._status_text p = ""
    · simp [hs]
    · by_cases hm : OpsMain._status_text p ∈ OpsMain.HEALTH_OK_STATES
      · simp [hs, hm, List.contains, List.elem_iff]
      · simp [hs, hm, List.contains, List.elem_iff]
  · simp only [OpsCli.health_once, OpsCli.request_json, if_neg h3, if_neg h4]
    cases p with
    | dict kvs =>
      simp only [OpsCli.statusTextDefault]
      by_cases hs : normTxt (pyStr (pyGetD kvs "status" (Py.str ""))) = ""
      · simp [hs]
      · by_cases hm :
          normTxt (pyStr (pyGetD kvs "status" (Py.str ""))) ∈ ["healthy", "ok", "running"]
        · simp [hs, hm, List.contains, List.elem_iff]
        · simp [hs, hm, List.contains, List.elem_iff]
    | none => simp [OpsCli.statusTextDefault]
    | bool b => simp [OpsCli.statusTextDefault]
    | int n => simp [OpsCli.statusTextDefault]
    | str s => simp [OpsCli.statusTextDefault]
    | list xs => simp [OpsCli.statusTextDefault]

/-- Witness for C4 (amended): a normalized `"OK"` status is healthy. -/
theorem health_once_status_allowlist_witness :
    (OpsMain.health_once (Transport.resp ⟨200, "x",
      Option.some (Py.dict [("status", Py.str "OK")])⟩)).1 = true :=
  (health_once_status_allowlist 200 "x" (Py.dict [("status", Py.str "OK")])
    (by decide) (by decide) (by decide)).1.mpr (Or.inr (by decide))

/-- C2 counterexample: for a payload carrying both a non-empty `job_id`
and a non-empty `id`, the extractors of ops/main.py and src/ops_cli.py
return the `id` value, not the `job_id` value — `id` has priority there,
contradicting "job_id has priority over id" for those generations. -/
theorem id_wins_over_job_id_in_main :
    OpsMain._extract_job_id (Py.dict [("job_id", Py.str "x"), ("id", Py.str "y")]) =
      Option.some "y" ∧
    OpsCli._extract_job_id (Py.dict [("job_id", Py.str "x"), ("id", Py.str "y")]) =
      Option.some "y" ∧
    ¬ OpsMain._extract_job_id (Py.dict [("job_id", Py.str "x"), ("id", Py.str "y")]) =
      Option.some "x" :=
  ⟨rfl, rfl, by decide⟩

/-- A candidate key whose value is non-null with non-empty stripped text
wins immediately in the extraction loop. -/
theorem firstIdFrom_head (kvs : List (String × Py)) (key : String)
    (keys : List String) (v : Py) (hv : pyGet kvs key = v) (hn : v ≠ Py.none)
    (hs : pyStrip (pyStr v) ≠ "") :
    firstIdFrom kvs (key :: keys) = Option.some (pyStrip (pyStr v)) := by
  simp only [firstIdFrom, hv]
  cases v with
  | none => exact absurd rfl hn
  | bool b => simp [if_neg hs]
  | int n => simp [if_neg hs]
  | str s => simp [if_neg hs]
  | list xs => simp [if_neg hs]
  | dict d => simp [if_neg hs]

/-- C2 amended: the candidate order is fixed per generation —
`job_id, id, jobId` in ops/checks.py (job_id wins) but `id, job_id,
jobId` in ops/main.py and src/ops_cli.py (id wins); in every generation
an extraction that yields no id makes the enqueue a fatal error (the
doctor run ends `start_failed` with `ok=false`). -/
theorem job_id_alias_priority_per_generation :
    (∀ (kvs : List (String × Py)) (vj vi : Py),
      List.lookup "job_id" kvs = Option.some vj →
      List.lookup "id" kvs = Option.some vi →
      vj ≠ Py.none → vi ≠ Py.none →
      pyStrip (pyStr vj) ≠ "" → pyStrip (pyStr vi) ≠ "" →
      Checks._extract_job_id (Py.dict kvs) = Option.some (pyStrip (pyStr vj)) ∧
      OpsMain._extract_job_id (Py.dict kvs) = Option.some (pyStrip (pyStr vi)) ∧
      OpsCli._extract_job_id (Py.dict kvs) = Option.some (pyStrip (pyStr vi))) ∧
    (∀ (oracle : Nat → Transport) (t ps : Nat) (ok3 : Bool) (code3 : Option Nat)
      (p3 : Py) (err3 : String),
      Checks._request_json (oracle 3) = (ok3, code3, p3, err3) →
      Checks._extract_job_id p3 = Option.none →
      (Checks.run_checks oracle t ps).final_status ∈ ["not_started", "start_failed"] ∧
      (Checks.run_checks oracle t ps).summary_ok = false) := by
  constructor
  · intro kvs vj vi hj hi hjn hin hjs his
    have hgj : pyGet kvs "job_id" = vj := by simp [pyGet, hj]
    have hgi : pyGet kvs "id" = vi := by simp [pyGet, hi]
    exact ⟨by simp only [Checks._extract_job_id]; exact firstIdFrom_head kvs _ _ vj hgj hjn hjs,
      by simp only [OpsMain._extract_job_id]; exact firstIdFrom_head kvs _ _ vi hgi hin his,
      by simp only [OpsCli._extract_job_id]; exact firstIdFrom_head kvs _ _ vi hgi hin his⟩
  · intro oracle t ps ok3 code3 p3 err3 h3 hid
    simp only [Checks.run_checks]
    rcases h0 : Checks._request_json (oracle 0) with ⟨ok0, code0, p0, e0⟩
    by_cases hh : (ok0 && p0.isDict) = true
    · rcases h1 : Checks._request_json (oracle 1) with ⟨ok1, code1, p1, e1⟩
      rcases h2 : Checks._request_json (oracle 2) with ⟨ok2, code2, p2, e2⟩
      simp [h0, h1, h2, h3, hh, hid]
    · have hh2 : (ok0 && p0.isDict) = false := by simpa using hh
      simp [h0, hh2]

/-- Witness for C2 (amended): both alias orders and the fatal-enqueue
path at concrete inputs. -/
theorem job_id_alias_priority_per_generation_witness :
    Checks._extract_job_id (Py.dict [("job_id", Py.str " a1 "), ("id", Py.str "b2")]) =
      Option.some "a1" ∧
    OpsMain._extract_job_id (Py.dict [("job_id", Py.str " a1 "), ("id", Py.str "b2")]) =
      Option.some "b2" ∧
    (Checks.run_checks (fun _ => Transport.resp ⟨200, "x", Option.some (Py.dict [])⟩)
      10 2).summary_ok = false := by
  have h := job_id_alias_priority_per_generation.1
    [("job_id", Py.str " a1 "), ("id", Py.str "b2")] (Py.str " a1 ") (Py.str "b2")
    rfl rfl (by simp) (by simp) (by decide) (by decide)
  have h2 := (job_id_alias_priority_per_generation.2
    (fun _ => Transport.resp ⟨200, "x", Option.some (Py.dict [])⟩) 10 2
    true (Option.some 200) (Py.dict []) "" rfl rfl).2
  exact ⟨h.1.trans (by decide), h.2.1.trans (by decide), h2⟩

/-- C6: with `force=false`, if any current owner of the port is not
allowlisted, `_stop_backend_on_port` refuses with a message naming the
first offending pid and command line and invokes `_terminate_pid` on no
process at all (no partial kills); moreover, with `force=false` every
pid it ever terminates belongs to an allowlisted owner. -/
theorem stop_refuses_unallowlisted_without_force (port : Nat) (pids : List Nat)
    (command : Nat → String) (procOf : Nat → OpsMain.ProcBehavior) (g h : Nat) :
    (∀ u : OpsMain.Owner,
      (OpsMain._collect_port_owners pids command).find? (fun o => !o.safe_to_kill) =
        Option.some u →
      OpsMain._stop_backend_on_port port pids "" command procOf g h false =
        ((false, OpsMain.refuseMsgOnPort port u.pid (strOr u.command "(unknown)"),
          OpsMain._collect_port_owners pids command), [])) ∧
    (∀ pid,
      pid ∈ (OpsMain._stop_backend_on_port port pids "" command procOf g h false).2 →
      ∃ o, o ∈ OpsMain._collect_port_owners pids command ∧ o.pid = pid ∧
        o.safe_to_kill = true) := by
  constructor
  · intro u hu
    cases howners : OpsMain._collect_port_owners pids command with
    | nil => rw [howners] at hu; simp at hu
    | cons a as =>
      rw [howners] at hu
      simp only [OpsMain._stop_backend_on_port, howners]
      simp [hu]
  · intro pid hmem
    simp only [OpsMain._stop_backend_on_port] at hmem
    cases howners : OpsMain._collect_port_owners pids command with
    | nil => rw [howners] at hmem; simp at hmem
    | cons a as =>
      rw [howners] at hmem
      simp only [bne_self_eq_false, Bool.false_eq_true, if_false, List.isEmpty_cons,
        if_true] at hmem
      rcases hf : (a :: as).find? (fun o => !o.safe_to_kill) with _ | o
      · rw [hf] at hmem
        simp only [] at hmem
        have hall := List.find?_eq_none.mp hf
        split at hmem
        · rcases List.mem_map.mp hmem with ⟨o, ho, hpo⟩
          exact ⟨o, howners ▸ ho, hpo, by simpa using hall o ho⟩
        · rcases List.mem_map.mp hmem with ⟨o, ho, hpo⟩
          exact ⟨o, howners ▸ ho, hpo, by simpa using hall o ho⟩
      · rw [hf] at hmem
        simp at hmem

/-- Witness for C6: port 8420 owned by an allowlisted backend (pid 101)
and nginx (pid 202); without force the stop refuses, names pid 202, and
kills nothing. -/
theorem stop_refuses_unallowlisted_without_force_witness :
    OpsMain._stop_backend_on_port 8420 [101, 202] ""
      (fun pid => if pid = 101
        then "/users/dev/dpolaris_ai/.venv/bin/python -m cli.main server --port 8420"
        else "nginx: master process")
      (fun _ => ⟨true, false, false, Option.some 0, Option.none⟩) 5 30 false =
      ((false,
        OpsMain.refuseMsgOnPort 8420 202 (strOr "nginx: master process" "(unknown)"),
        OpsMain._collect_port_owners [101, 202]
          (fun pid => if pid = 101
            then "/users/dev/dpolaris_ai/.venv/bin/python -m cli.main server --port 8420"
            else "nginx: master process")), []) :=
  (stop_refuses_unallowlisted_without_force 8420 [101, 202]
    (fun pid => if pid = 101
      then "/users/dev/dpolaris_ai/.venv/bin/python -m cli.main server --port 8420"
      else "nginx: master process")
    (fun _ => ⟨true, false, false, Option.some 0, Option.none⟩) 5 30).1
    ⟨202, "nginx: master process", false⟩ rfl

/-- C3 counterexample: in the doctor poll loop (ops/checks.py), a single
transport error terminates the loop at once — final status `"failed"`
after exactly one poll, with 1000 seconds still left before the deadline
— contradicting "such errors never terminate the loop before the
deadline". -/
theorem doctor_poll_error_aborts_loop :
    (Checks.pollLoop (fun _ => Transport.exn "connection refused") 4 "42" 1000 1000 2 0
      Py.none).finalStatus = "failed" ∧
    (Checks.pollLoop (fun _ => Transport.exn "connection refused") 4 "42" 1000 1000 2 0
      Py.none).pollCount = 1 ∧
    (Checks.pollLoop (fun _ => Transport.exn "connection refused") 4 "42" 1000 1000 2 0
      Py.none).classifications = ["API_CONTRACT_INCONSISTENT"] :=
  ⟨rfl, rfl, rfl⟩

/-- C3 amended: in the smoke poll loops (ops/main.py `cmd_smoke_dl` and
src/ops_cli.py `cmd_smoke`) a transport error or a non-object payload
records the error and continues, and only the deadline or a terminal
status ends the loop; in the doctor loop (ops/checks.py) a poll error
instead ends the loop immediately with final status `"failed"`,
classification `API_CONTRACT_INCONSISTENT` and the error recorded. -/
theorem poll_error_handling_per_generation :
    (∀ (oracle : Nat → Transport) (n fuel rem : Nat) (le ls : String) (lp : Py)
      (m : String), oracle n = Transport.exn m → 0 < rem →
      OpsMain.dlPollLoop oracle n (fuel + 1) rem le lp ls =
        OpsMain.dlPollLoop oracle (n + 1) fuel (rem - 2) m lp ls) ∧
    (∀ (oracle : Nat → Transport) (n fuel rem : Nat) (le ls : String) (lp : Py)
      (st : Nat) (txt : String) (p : Py),
      oracle n = Transport.resp ⟨st, txt, Option.some p⟩ → 200 ≤ st → st < 300 →
      txt ≠ "" → p.isDict = false → 0 < rem →
      OpsMain.dlPollLoop oracle n (fuel + 1) rem le lp ls =
        OpsMain.dlPollLoop oracle (n + 1) fuel (rem - 2)
          "job poll payload is not JSON object" lp ls) ∧
    (∀ (oracle : Nat → Transport) (n fuel : Nat) (le ls : String) (lp : Py),
      OpsMain.dlPollLoop oracle n fuel 0 le lp ls =
        OpsMain.DlLoopResult.timeout le lp) ∧
    (∀ (oracle : Nat → Transport) (n fuel rem : Nat) (fe m : String),
      oracle n = Transport.exn m → 0 < rem →
      OpsCli.smokeLoop oracle n (fuel + 1) rem fe =
        OpsCli.smokeLoop oracle (n + 1) fuel (rem - 2) m) ∧
    (∀ (oracle : Nat → Transport) (reqIdx : Nat) (jobId : String)
      (fuel rem ps pc : Nat) (lp : Py) (m : String),
      oracle reqIdx = Transport.exn m → 0 < rem →
      (Checks.pollLoop oracle reqIdx jobId (fuel + 1) rem ps pc lp).finalStatus =
        "failed" ∧
      (Checks.pollLoop oracle reqIdx jobId (fuel + 1) rem ps pc lp).classifications =
        ["API_CONTRACT_INCONSISTENT"] ∧
      (Checks.pollLoop oracle reqIdx jobId (fuel + 1) rem ps pc lp).pollCount = pc + 1 ∧
      (Checks.pollLoop oracle reqIdx jobId (fuel + 1) rem ps pc lp).jobError =
        Option.some (strOr m "job poll failed")) := by
  refine ⟨?_, ?_, ?_, ?_, ?_⟩
  · intro oracle n fuel rem le ls lp m ho hrem
    simp [OpsMain.dlPollLoop, ho, OpsMain._http_requests, hrem]
  · intro oracle n fuel rem le ls lp st txt p ho h1 h2 h3 hd hrem
    simp [OpsMain.dlPollLoop, ho, OpsMain._http_requests, h1, h2, if_neg h3, hd, hrem]
  · intro oracle n fuel le ls lp
    cases fuel with
    | zero => rfl
    | succ f => simp [OpsMain.dlPollLoop]
  · intro oracle n fuel rem fe m ho hrem
    simp [OpsCli.smokeLoop, ho, OpsCli.request_json, hrem]
  · intro oracle reqIdx jobId fuel rem ps pc lp m ho hrem
    refine ⟨?_, ?_, ?_, ?_⟩ <;>
      simp [Checks.pollLoop, ho, Checks._request_json, Checks._extract_job_status, hrem]

/-- Witness for C3 (amended) at a concrete erroring oracle. -/
theorem poll_error_handling_per_generation_witness :
    OpsMain.dlPollLoop (fun _ => Transport.exn "boom") 0 4 10 "" (Py.dict []) "" =
      OpsMain.dlPollLoop (fun _ => Transport.exn "boom") 1 3 8 "boom" (Py.dict []) "" ∧
    (Checks.pollLoop (fun _ => Transport.exn "boom") 0 "7" 6 12 2 0 Py.none).finalStatus =
      "failed" :=
  ⟨poll_error_handling_per_generation.1 (fun _ => Transport.exn "boom") 0 3 10 "" ""
      (Py.dict []) "boom" rfl (by decide),
   (poll_error_handling_per_generation.2.2.2.2 (fun _ => Transport.exn "boom") 0 "7" 5 12
      2 0 Py.none "boom" rfl (by decide)).1⟩

/-- C1 counterexample: a backend whose polls always answer
`{"status": "Completed"}` — normalized `"completed"`, which is in the
success vocabulary {completed, success} — never makes the doctor loop of
ops/checks.py stop with success: the run ends in `timeout` with
classification `DL_JOB_TIMEOUT`, contradicting "the poll loop stops with
a success outcome exactly when the normalized status is in
{completed, success}". -/
theorem poll_completed_not_terminal_in_doctor :
    (Checks.run_checks
      (fun n => Transport.resp ⟨200, "j",
        Option.some (if n = 3 then Py.dict [("id", Py.str "42")]
          else Py.dict [("status", Py.str "Completed")])⟩) 10 2).final_status =
      "timeout" ∧
    (Checks.run_checks
      (fun n => Transport.resp ⟨200, "j",
        Option.some (if n = 3 then Py.dict [("id", Py.str "42")]
          else Py.dict [("status", Py.str "Completed")])⟩) 10 2).classifications =
      ["DL_JOB_TIMEOUT"] ∧
    OpsMain.JOB_SUCCESS_STATES.contains
      (Checks._extract_job_status (Py.dict [("status", Py.str "Completed")])) = true :=
  ⟨rfl, rfl, rfl⟩

/-- C1 amended: status text is lower-cased and stripped in every
generation, and the smoke-dl loop of ops/main.py stops with success
exactly on {completed, success} and with failure exactly on
{failed, error, cancelled}; but the doctor loop of ops/checks.py treats
only the exact normalized statuses `"success"` / `"failed"` as terminal
(`completed`, `error`, `cancelled` keep polling), and the ops_cli smoke
loop stops with success on {completed, success} while its only terminal
failure status is `"failed"`; anything else keeps each loop polling. -/
theorem poll_vocab_per_generation (oracle : Nat → Transport) (n st : Nat)
    (txt : String) (kvs : List (String × Py)) (fuel rem : Nat)
    (le ls jobId : String) (lp : Py) (ps pc : Nat)
    (ho : oracle n = Transport.resp ⟨st, txt, Option.some (Py.dict kvs)⟩)
    (h1 : 200 ≤ st) (h2 : st < 300) (h3 : txt ≠ "") (hrem : 0 < rem) :
    ((OpsMain._status_text (Py.dict kvs) ∈ OpsMain.JOB_SUCCESS_STATES →
      OpsMain.dlPollLoop oracle n (fuel + 1) rem le lp ls =
        OpsMain.DlLoopResult.success (Py.dict kvs)
          (OpsMain._status_text (Py.dict kvs))) ∧
     (OpsMain._status_text (Py.dict kvs) ∈ OpsMain.JOB_FAILURE_STATES →
      OpsMain.dlPollLoop oracle n (fuel + 1) rem le lp ls =
        OpsMain.DlLoopResult.failed (Py.dict kvs) (OpsMain._status_text (Py.dict kvs))
          (strOr (OpsMain._extract_job_error (Py.dict kvs)) "job failed")) ∧
     (OpsMain._status_text (Py.dict kvs) ∉ OpsMain.JOB_SUCCESS_STATES →
      OpsMain._status_text (Py.dict kvs) ∉ OpsMain.JOB_FAILURE_STATES →
      OpsMain.dlPollLoop oracle n (fuel + 1) rem le lp ls =
        OpsMain.dlPollLoop oracle (n + 1) fuel (rem - 2) le (Py.dict kvs)
          (OpsMain._status_text (Py.dict kvs)))) ∧
    ((Checks._extract_job_status (Py.dict kvs) = "success" →
      (Checks.pollLoop oracle n jobId (fuel + 1) rem ps pc lp).finalStatus = "success") ∧
     (Checks._extract_job_status (Py.dict kvs) = "failed" →
      (Checks.pollLoop oracle n jobId (fuel + 1) rem ps pc lp).finalStatus = "failed") ∧
     (Checks._extract_job_status (Py.dict kvs) ≠ "success" →
      Checks._extract_job_status (Py.dict kvs) ≠ "failed" →
      (Checks.pollLoop oracle n jobId (fuel + 1) rem ps pc lp).finalStatus =
        (Checks.pollLoop oracle (n + 1) jobId fuel (rem - max 1 ps) ps (pc + 1)
          (Py.dict kvs)).finalStatus ∧
      (Checks.pollLoop oracle n jobId (fuel + 1) rem ps pc lp).pollCount =
        (Checks.pollLoop oracle (n + 1) jobId fuel (rem - max 1 ps) ps (pc + 1)
          (Py.dict kvs)).pollCount)) ∧
    ((OpsCli.statusTextDefault (Py.dict kvs) ∈ ["completed", "success"] →
      OpsCli.smokeLoop oracle n (fuel + 1) rem le =
        OpsCli.CliLoopResult.success (OpsCli.statusTextDefault (Py.dict kvs))) ∧
     (OpsCli.statusTextDefault (Py.dict kvs) = "failed" →
      OpsCli.smokeLoop oracle n (fuel + 1) rem le =
        OpsCli.CliLoopResult.failed "failed" (OpsCli.orChainEDM kvs)) ∧
     (OpsCli.statusTextDefault (Py.dict kvs) ∉ ["completed", "success"] →
      OpsCli.statusTextDefault (Py.dict kvs) ≠ "failed" →
      OpsCli.smokeLoop oracle n (fuel + 1) rem le =
        OpsCli.smokeLoop oracle (n + 1) fuel (rem - 2) le)) := by
  have h4 : ¬ (400 ≤ st) := by omega
  refine ⟨⟨?_, ?_, ?_⟩, ⟨?_, ?_, ?_⟩, ⟨?_, ?_, ?_⟩⟩
  · intro hs
    simp [OpsMain.dlPollLoop, ho, OpsMain._http_requests, Py.isDict, h1, h2, if_neg h3,
      hrem, hs]
  · intro hf
    have hdisj : OpsMain._status_text (Py.dict kvs) ∉ OpsMain.JOB_SUCCESS_STATES := by
      have hf2 := hf
      simp only [OpsMain.JOB_FAILURE_STATES, List.mem_cons, List.not_mem_nil,
        or_false] at hf2
      rcases hf2 with h | h | h <;> rw [h] <;> decide
    simp [OpsMain.dlPollLoop, ho, OpsMain._http_requests, Py.isDict, h1, h2, if_neg h3,
      hrem, hf, hdisj]
  · intro hs hf
    simp [OpsMain.dlPollLoop, ho, OpsMain._http_requests, Py.isDict, h1, h2, if_neg h3,
      hrem, hs, hf]
  · intro hs
    simp [Checks.pollLoop, ho, Checks._request_json, Py.isDict, h4, hrem, hs]
  · intro hf
    simp [Checks.pollLoop, ho, Checks._request_json, Py.isDict, h4, hrem, hf]
  · intro hs hf
    simp [Checks.pollLoop, ho, Checks._request_json, Py.isDict, h4, hrem, hs, hf]
  · intro hs
    simp only [OpsCli.statusTextDefault] at hs
    simp [OpsCli.smokeLoop, ho, OpsCli.request_json, OpsCli.statusTextDefault, h4,
      if_neg h3, hrem, hs]
  · intro hf
    simp only [OpsCli.statusTextDefault] at hf
    have hns : normTxt (pyStr (pyGetD kvs "status" (Py.str ""))) ∉
        ["completed", "success"] := by rw [hf]; decide
    simp [OpsCli.smokeLoop, ho, OpsCli.request_json, h4, if_neg h3, hrem, hf, hns]
  · intro hs hf
    simp only [OpsCli.statusTextDefault] at hs hf
    simp [OpsCli.smokeLoop, ho, OpsCli.request_json, h4, if_neg h3, hrem, hs, hf]

/-- Witness for C1 (amended): a `"Completed"` status ends the smoke-dl
loop with success but leaves the doctor loop polling. -/
theorem poll_vocab_per_generation_witness :
    OpsMain.dlPollLoop
      (fun _ => Transport.resp ⟨200, "b",
        Option.some (Py.dict [("status", Py.str "Completed")])⟩) 0 4 10 "" (Py.dict []) "" =
      OpsMain.DlLoopResult.success (Py.dict [("status", Py.str "Completed")])
        (OpsMain._status_text (Py.dict [("status", Py.str "Completed")])) ∧
    (Checks.pollLoop
      (fun _ => Transport.resp ⟨200, "b",
        Option.some (Py.dict [("status", Py.str "Completed")])⟩) 0 "42" 4 10 2 0
      Py.none).finalStatus =
      (Checks.pollLoop
        (fun _ => Transport.resp ⟨200, "b",
          Option.some (Py.dict [("status", Py.str "Completed")])⟩) 1 "42" 3 8 2 1
        (Py.dict [("status", Py.str "Completed")])).finalStatus := by
  have h := poll_vocab_per_generation
    (fun _ => Transport.resp ⟨200, "b",
      Option.some (Py.dict [("status", Py.str "Completed")])⟩) 0 200 "b"
    [("status", Py.str "Completed")] 3 10 "" "" "42" (Py.dict []) 2 0 rfl
    (by decide) (by decide) (by decide) (by decide)
  exact ⟨h.1.1 (by decide), (h.2.1.2.2 (by decide) (by decide)).1⟩
